import Mathlib

/-!
# InflatableText — verification of the letter lifecycle and animation engine

Shallow embedding of the core of the InflatableText repository
(`src/js/main.js`, `src/js/ui.js`, `src/js/clock.js`), together with
theorems settling the specification claims about it.

Numeric model: JavaScript numbers are modelled as exact rationals (`ℚ`)
for the layout / reconciliation code, and as real numbers (`ℝ`) for the
physics code, whose pairwise-collision pass takes a square root
(`Math.sqrt` ↦ `Real.sqrt`).
-/

namespace InflatableText

/-! ## Layout engine (ui.js, text input handler and wrapTextToFit) -/

/-- JS whitespace test used by both `char.trim()` (truthiness of a single
character) and `line.replace(/\s/g, '')`, restricted to the characters that
can occur here. -/
def isWs (c : Char) : Bool :=
  c = ' ' || c = '\t' || c = '\n' || c = '\r'

/-- Number of non-whitespace characters of a line:
`line.replace(/\s/g, '').length` (ui.js:74 and ui.js:152). -/
def nonWsLen (line : List Char) : Nat :=
  (line.filter (fun c => !(isWs c))).length

/-- Embedding of `text.split(sep)` for a one-character separator (ui.js:114 `text.split('\n')`,
ui.js:25 `line.split(' ')`). -/
def splitOnChar (sep : Char) : List Char → List (List Char)
  | [] => [[]]
  | c :: rest =>
    match splitOnChar sep rest with
    | [] => [[]]
    | l :: ls => if c = sep then [] :: l :: ls else (c :: l) :: ls

/-- Structural-recursion helper for `chunks`: the fuel is an upper bound
on the number of loop iterations and is never exhausted at the call
site. -/
def chunksAux (m : Nat) : Nat → List Char → List (List Char)
  | _, [] => []
  | 0, w => [w]
  | fuel + 1, w => w.take m :: chunksAux m fuel (w.drop m)

/-- Force-breaking a too-long word into chunks of `m` characters
(ui.js:45-47: `for (let i = 0; i < word.length; i += maxCharsPerLine) ...`).
The `m = 0` case is unreachable at the call site (guarded by
`maxCharsPerLine <= 0` at ui.js:13) and is given a harmless value. -/
def chunks (m : Nat) (w : List Char) : List (List Char) :=
  if m = 0 then [w] else chunksAux m w.length w

/-- One step of the word-wrapping loop body (ui.js:28-53).  The
accumulator is `(wrappedLines, currentLine)`. -/
def wrapStep (maxChars : Nat) (acc : List (List Char) × List Char)
    (word : List Char) : List (List Char) × List Char :=
  let wrapped := acc.1
  let currentLine := acc.2
  let testLine := if currentLine ≠ [] then currentLine ++ [' '] ++ word else word
  if testLine.length ≤ maxChars then
    (wrapped, testLine)
  else if currentLine ≠ [] then
    (wrapped ++ [currentLine], word)
  else if word.length > maxChars then
    (wrapped ++ chunks maxChars word, [])
  else
    (wrapped, word)

/-- Wrapping of a single input line (ui.js:18-60), including the
empty-line shortcut (ui.js:19-22) and the trailing
`if (wordIndex === words.length - 1 && currentLine)` push (ui.js:56-58),
which is equivalent to pushing a non-empty `currentLine` after the loop. -/
def wrapOneLine (maxChars : Nat) (line : List Char) : List (List Char) :=
  if line = [] then [[]]
  else
    let r := (splitOnChar ' ' line).foldl (wrapStep maxChars) ([], [])
    if r.2 ≠ [] then r.1 ++ [r.2] else r.1

/-- Result record of `wrapTextToFit` (ui.js:89). -/
structure WrapResult where
  lines : List (List Char)
  letterWidth : ℚ
  letterHeight : ℚ
deriving DecidableEq, Repr

/-- Embedding of
`wrapTextToFit(lines, boxWidth, boxHeight, letterWidth, letterHeight)`
(ui.js:7-90).  `Math.max(...[])` (JS `-Infinity`) is modelled as `0`; it can
arise only for a text whose every line is pure whitespace and neither value
triggers the shrink branch for a non-negative box width. -/
def wrapTextToFit (lines : List (List Char)) (boxWidth boxHeight letterWidth letterHeight : ℚ) :
    WrapResult :=
  let maxCharsPerLine : ℤ := ⌊boxWidth / letterWidth⌋
  if maxCharsPerLine ≤ 0 then ⟨lines, letterWidth, letterHeight⟩
  else
    let m := maxCharsPerLine.toNat
    let wrappedLines := lines.flatMap (wrapOneLine m)
    let totalHeight : ℚ := wrappedLines.length * letterHeight
    let adjustedLetterHeight :=
      if totalHeight > boxHeight then boxHeight / wrappedLines.length else letterHeight
    let maxLineLength : ℕ := (wrappedLines.map nonWsLen).foldl max 0
    let totalWidth : ℚ := maxLineLength * letterWidth
    if totalWidth > boxWidth then
      let w := boxWidth / maxLineLength
      let h := w * (5/4)
      let h := if wrappedLines.length * h > boxHeight then boxHeight / wrappedLines.length else h
      ⟨wrappedLines, w, h⟩
    else
      ⟨wrappedLines, letterWidth, adjustedLetterHeight⟩

/-- One entry of the ephemeral `newLetters` layout list (`{char, x, y}`,
ui.js:175). -/
structure LayoutEntry where
  char : Char
  x : ℚ
  y : ℚ
deriving DecidableEq, Repr

/-- Rectangular canvas bounds (`InflatableText.canvasBounds`). -/
structure Bounds (α : Type) where
  minX : α
  maxX : α
  minY : α
  maxY : α
deriving DecidableEq, Repr

/-- The slice of `InflatableText.settings` consumed by the layout
computation. -/
structure LayoutSettings where
  autoSpacing : Bool
  randomSpawn : Bool
  fontSize : ℚ
  letterSpacing : ℚ
  lineSpacing : ℚ
  spawnRadius : ℚ
deriving DecidableEq, Repr

/-- The per-character loop of one line (ui.js:156-178): whitespace
characters (`char.trim()` falsy) produce no entry and leave
`charIndexInLine` untouched; non-whitespace characters produce one entry
and advance `charIndexInLine`.  In random-spawn mode the position is drawn
from the random stream `rnd`: `rnd g` stands for the unit direction
`(cos θ, sin θ)` obtained from `Math.random()` (ui.js:165-168), consumed
once per created entry (`g` counts entries created so far). -/
def buildLine (st : LayoutSettings) (b : Bounds ℚ) (rnd : Nat → ℚ × ℚ)
    (letterW letterH verticalOffset centerOffset : ℚ) (row : Nat) :
    List Char → Nat → Nat → List LayoutEntry
  | [], _, _ => []
  | c :: rest, k, g =>
    if isWs c then
      buildLine st b rnd letterW letterH verticalOffset centerOffset row rest k g
    else
      let pos : ℚ × ℚ :=
        if st.randomSpawn then
          let d := rnd g
          (d.1 * st.spawnRadius, d.2 * st.spawnRadius)
        else
          (b.minX + centerOffset + k * letterW + letterW / 2,
           b.maxY - verticalOffset - row * letterH - letterH / 2)
      ⟨c, pos.1, pos.2⟩ ::
        buildLine st b rnd letterW letterH verticalOffset centerOffset row rest (k + 1) (g + 1)

/-- The per-line loop (ui.js:150-179): `lineLength` counts only
non-whitespace characters, and the centering offset is computed from it. -/
def buildLines (st : LayoutSettings) (b : Bounds ℚ) (rnd : Nat → ℚ × ℚ)
    (letterW letterH verticalOffset : ℚ) :
    List (List Char) → Nat → Nat → List LayoutEntry
  | [], _, _ => []
  | line :: rest, row, g =>
    let boxWidth := b.maxX - b.minX
    let lineLength := nonWsLen line
    let lineWidth : ℚ := lineLength * letterW
    let centerOffset := (boxWidth - lineWidth) / 2
    buildLine st b rnd letterW letterH verticalOffset centerOffset row line 0 g ++
      buildLines st b rnd letterW letterH verticalOffset rest (row + 1) (g + lineLength)

/-- The spacing phase of the text-input handler (ui.js:113-142): line
splitting and the per-mode letter cell size, including the auto-wrap call.
Returns `none` for the manual-spacing early return
`if (maxLineLength === 0) return` (ui.js:138), where the handler aborts
without touching the letter list. -/
def layoutParams (st : LayoutSettings) (b : Bounds ℚ) (text : List Char) :
    Option (List (List Char) × ℚ × ℚ) :=
  let lines0 := splitOnChar '\n' text
  let boxWidth := b.maxX - b.minX
  let boxHeight := b.maxY - b.minY
  if st.autoSpacing then
    let lw := st.fontSize * (6/5)
    let lh := st.fontSize * (3/2)
    let r := wrapTextToFit lines0 boxWidth boxHeight lw lh
    some (r.lines, r.letterWidth, r.letterHeight)
  else
    let maxLineLength : ℕ := (lines0.map List.length).foldl max 0
    if maxLineLength = 0 then none
    else
      some (lines0, boxWidth / maxLineLength * st.letterSpacing,
        boxHeight / lines0.length * st.lineSpacing)

/-- The layout computation of the text-input handler (ui.js:113-179),
from the uppercased text to the `newLetters` list: spacing phase followed
by vertical centering (ui.js:144-146) and the per-line position loop. -/
def computeLayout (st : LayoutSettings) (b : Bounds ℚ) (rnd : Nat → ℚ × ℚ)
    (text : List Char) : Option (List LayoutEntry) :=
  (layoutParams st b text).map fun p =>
    let lines := p.1
    let letterW := p.2.1
    let letterH := p.2.2
    let boxHeight := b.maxY - b.minY
    let totalTextHeight : ℚ := lines.length * letterH
    let verticalOffset := (boxHeight - totalTextHeight) / 2
    buildLines st b rnd letterW letterH verticalOffset lines 0 0

lemma buildLine_rnd_irrel (st : LayoutSettings) (b : Bounds ℚ) (rnd₁ rnd₂ : Nat → ℚ × ℚ)
    (lw lh vo co : ℚ) (row : Nat) (h : st.randomSpawn = false) :
    ∀ line k g, buildLine st b rnd₁ lw lh vo co row line k g
      = buildLine st b rnd₂ lw lh vo co row line k g := by
  intro line
  induction line with
  | nil => intro k g; rfl
  | cons c rest ih =>
    intro k g
    simp only [buildLine, h]
    split
    · exact ih k g
    · simp only [Bool.false_eq_true, if_false, List.cons.injEq, true_and]
      exact ih (k + 1) (g + 1)

lemma buildLines_rnd_irrel (st : LayoutSettings) (b : Bounds ℚ) (rnd₁ rnd₂ : Nat → ℚ × ℚ)
    (lw lh vo : ℚ) (h : st.randomSpawn = false) :
    ∀ lines row g, buildLines st b rnd₁ lw lh vo lines row g
      = buildLines st b rnd₂ lw lh vo lines row g := by
  intro lines
  induction lines with
  | nil => intro row g; rfl
  | cons line rest ih =>
    intro row g
    simp only [buildLines]
    rw [buildLine_rnd_irrel st b rnd₁ rnd₂ lw lh vo _ row h, ih]

/-! ## Claims C7 and C9: layout determinism and whitespace handling -/

/-- C7: in automatic and manual spacing modes (`randomSpawn = false`),
the layout computation is deterministic: it does not consume the random
stream, so two computations with identical text, bounds and spacing
parameters (and arbitrary, possibly different, random streams) yield
identical ordered `{character, x, y}` lists. -/
theorem computeLayout_deterministic (st : LayoutSettings) (b : Bounds ℚ)
    (rnd₁ rnd₂ : Nat → ℚ × ℚ) (text : List Char) (h : st.randomSpawn = false) :
    computeLayout st b rnd₁ text = computeLayout st b rnd₂ text := by
  unfold computeLayout
  cases layoutParams st b text with
  | none => rfl
  | some p =>
    simp only [Option.map_some']
    exact congrArg some (buildLines_rnd_irrel st b rnd₁ rnd₂ p.2.1 p.2.2 _ h p.1 0 0)

/-- Witness for C7 at a concrete input: automatic spacing, text `"HI"`,
an 80×60 box, and two different random streams. -/
theorem computeLayout_deterministic_witness :
    (LayoutSettings.mk true false 5 (3/10) (3/10) 5).randomSpawn = false ∧
    computeLayout ⟨true, false, 5, 3/10, 3/10, 5⟩ ⟨-40, 40, -30, 30⟩
        (fun _ => (0, 0)) "HI".toList
      = computeLayout ⟨true, false, 5, 3/10, 3/10, 5⟩ ⟨-40, 40, -30, 30⟩
        (fun _ => (7, 9)) "HI".toList :=
  ⟨rfl, computeLayout_deterministic ⟨true, false, 5, 3/10, 3/10, 5⟩ ⟨-40, 40, -30, 30⟩
    (fun _ => (0, 0)) (fun _ => (7, 9)) "HI".toList rfl⟩

/-- C9 counterexample: whitespace does NOT consume a cell of horizontal
layout width.  With automatic spacing (font size 5, 80×60 box, no wrap),
the texts `"A B"` and `"AB"` produce identical layout lists — in
particular the `'B'` entity is at the same x-position in both, so the
space shifts nothing (and, with two entities for three characters,
receives no entity of its own). -/
theorem whitespace_consumes_width_counterexample :
    computeLayout ⟨true, false, 5, 3/10, 3/10, 5⟩ ⟨-40, 40, -30, 30⟩
        (fun _ => (0, 0)) ['A', ' ', 'B']
      = computeLayout ⟨true, false, 5, 3/10, 3/10, 5⟩ ⟨-40, 40, -30, 30⟩
        (fun _ => (0, 0)) ['A', 'B'] ∧
    computeLayout ⟨true, false, 5, 3/10, 3/10, 5⟩ ⟨-40, 40, -30, 30⟩
        (fun _ => (0, 0)) ['A', ' ', 'B']
      = some [⟨'A', -3, 0⟩, ⟨'B', 3, 0⟩] := by
  constructor <;>
    norm_num +decide [computeLayout, layoutParams, wrapTextToFit, wrapOneLine, wrapStep,
      splitOnChar, buildLines, buildLine, nonWsLen, isWs, chunks, chunksAux]

/-- C9 (amended): in grid layout, a whitespace character receives no
letter entity, consumes no horizontal layout width and shifts nothing:
the per-line position loop produces the same entries for a line as for
the line with its whitespace removed (the x index counts only preceding
non-whitespace characters), and the line-centering width likewise counts
only non-whitespace characters. -/
theorem whitespace_no_entity_no_shift (st : LayoutSettings) (b : Bounds ℚ)
    (rnd : Nat → ℚ × ℚ) (lw lh vo co : ℚ) (row : Nat) :
    (∀ line k g, buildLine st b rnd lw lh vo co row line k g
      = buildLine st b rnd lw lh vo co row (line.filter (fun c => !(isWs c))) k g) ∧
    (∀ line, nonWsLen (line.filter (fun c => !(isWs c))) = nonWsLen line) := by
  constructor
  · intro line
    induction line with
    | nil => intro k g; rfl
    | cons c rest ih =>
      intro k g
      cases hws : isWs c with
      | true =>
        simp only [buildLine, hws, List.filter_cons, Bool.not_true, Bool.false_eq_true,
          if_false, if_true]
        exact ih k g
      | false =>
        simp only [buildLine, hws, List.filter_cons, Bool.not_false, Bool.false_eq_true,
          if_false, if_true, List.cons.injEq, true_and]
        exact ih (k + 1) (g + 1)
  · intro line
    simp [nonWsLen, List.filter_filter]

/-! ## Letter entities (main.js `letterObj`) -/

/-- One live letter entity (the `letterObj` records of
`InflatableText.letterMeshes`, main.js:474-495, plus the clock-mode flags
set in clock.js and the resource bookkeeping of the owned mesh:
`inScene` models membership of `letterObj.mesh` in the scene graph,
`geomDisposed`/`matDisposed` model `geometry.dispose()` /
`material.dispose()` having been called, and `scale`/`opacity` model
`mesh.scale` and `material.opacity`).  `z` coordinates are omitted: the
layout is planar and no update ever touches them.  The numeric type is a
parameter so that the reconciliation code can be stated over `ℚ` and the
physics code over `ℝ`. -/
structure Letter (α : Type) where
  char : Char
  px : α
  py : α
  vx : α
  vy : α
  inflation : α
  isInflating : Bool
  isStatic : Bool
  isFlyingDigit : Bool
  currentBevelThickness : α
  currentBevelSize : α
  scale : α
  opacity : α
  inScene : Bool
  geomDisposed : Bool
  matDisposed : Bool
deriving DecidableEq, Repr

/-- Removal of a letter's resources (ui.js:187-191):
`scene.remove(mesh)`, `geometry.dispose()`, `material.dispose()`. -/
def dispose {α : Type} (l : Letter α) : Letter α :=
  { l with inScene := false, geomDisposed := true, matDisposed := true }

/-- Embedding of `createLetterMesh(char, index, gridPosition)`
(main.js:453-514) for a
grid position taken from the layout entry: velocity zero, inflation `0`
and `isInflating = true`, flat bevel, mesh added to the scene. -/
def createLetter (e : LayoutEntry) : Letter ℚ :=
  { char := e.char, px := e.x, py := e.y, vx := 0, vy := 0,
    inflation := 0, isInflating := true, isStatic := false, isFlyingDigit := false,
    currentBevelThickness := 0, currentBevelSize := 0, scale := 1, opacity := 1,
    inScene := true, geomDisposed := false, matDisposed := false }

/-- In-place update of an existing letter against the layout entry at its
index (ui.js:196-226): outside random-spawn mode, override the position
(and zero the velocity) only when it moved by more than the `0.1`
epsilon; then, if the character changed, take the new character (the
geometry is rebuilt from it with the current bevel values). -/
def updateExisting (randomSpawn : Bool) (e : LayoutEntry) (l : Letter ℚ) : Letter ℚ :=
  let l1 :=
    if !randomSpawn ∧ (|l.px - e.x| > 1/10 ∨ |l.py - e.y| > 1/10) then
      { l with px := e.x, py := e.y, vx := 0, vy := 0 }
    else l
  if l1.char ≠ e.char then { l1 with char := e.char } else l1

/-- The reconciliation step of the text-input handler (ui.js:181-235):
pop and dispose trailing letters beyond the layout's length, update the
letters present at indices of both lists, and create letters for indices
only in the layout (`createLetterMesh` returns `null` while the font is
not loaded, in which case nothing is pushed).  Returns the new active
list together with the list of removed (disposed) letters. -/
def reconcile (randomSpawn fontLoaded : Bool) (layout : List LayoutEntry)
    (ls : List (Letter ℚ)) : List (Letter ℚ) × List (Letter ℚ) :=
  let kept := ls.take layout.length
  let removed := (ls.drop layout.length).map dispose
  let updated := List.zipWith (updateExisting randomSpawn) layout kept
  let created :=
    if fontLoaded then (layout.drop kept.length).map createLetter else []
  (updated ++ created, removed)

lemma updateExisting_char (randomSpawn : Bool) (e : LayoutEntry) (l : Letter ℚ) :
    (updateExisting randomSpawn e l).char = e.char := by
  unfold updateExisting
  split <;> (dsimp only; split <;> simp_all)

/-! ## Claim C2: reconciliation truncation -/

/-- C2: if the layout list has `M` entries and the active list has
`N > M` letters, reconciliation leaves an active list of length exactly
`M` whose characters match the layout's, and every one of the `N − M`
removed letters has had its mesh removed from the scene and its geometry
and material disposed. -/
theorem reconcile_truncation (randomSpawn fontLoaded : Bool)
    (layout : List LayoutEntry) (ls : List (Letter ℚ))
    (h : layout.length < ls.length) :
    (reconcile randomSpawn fontLoaded layout ls).1.length = layout.length ∧
    (∀ i : ℕ, ((reconcile randomSpawn fontLoaded layout ls).1.get? i).map Letter.char
      = (layout.get? i).map LayoutEntry.char) ∧
    (reconcile randomSpawn fontLoaded layout ls).2.length = ls.length - layout.length ∧
    (∀ l ∈ (reconcile randomSpawn fontLoaded layout ls).2,
      l.inScene = false ∧ l.geomDisposed = true ∧ l.matDisposed = true) := by
  have hkept : (ls.take layout.length).length = layout.length :=
    List.length_take_of_le h.le
  have hr : reconcile randomSpawn fontLoaded layout ls
      = (List.zipWith (updateExisting randomSpawn) layout (ls.take layout.length),
        (ls.drop layout.length).map dispose) := by
    simp only [reconcile, hkept, List.drop_length, List.map_nil, ite_self,
      List.append_nil]
  refine ⟨?_, ?_, ?_, ?_⟩
  · rw [hr]
    simp only [List.length_zipWith, hkept, min_self]
  · intro i
    rw [hr]
    simp only [List.get?_zipWith']
    rcases hlt : layout.get? i with _ | e
    · simp
    · have hi : i < layout.length := List.get?_eq_some.mp hlt |>.1
      rcases hk : (ls.take layout.length).get? i with _ | l
      · exact absurd (List.get?_eq_none.mp hk) (by omega)
      · simp [updateExisting_char]
  · rw [hr]
    simp only [List.length_map, List.length_drop]
  · intro l hl
    rw [hr] at hl
    simp only [List.mem_map] at hl
    obtain ⟨l0, _, rfl⟩ := hl
    exact ⟨rfl, rfl, rfl⟩

/-- Concrete letters and layout used by the reconciliation witness. -/
def wLetterA : Letter ℚ :=
  { char := 'H', px := -3, py := 0, vx := 0, vy := 0,
    inflation := 1, isInflating := false, isStatic := false, isFlyingDigit := false,
    currentBevelThickness := 23/100, currentBevelSize := 3/20, scale := 1, opacity := 1,
    inScene := true, geomDisposed := false, matDisposed := false }

/-- Second concrete letter for the reconciliation witness. -/
def wLetterB : Letter ℚ :=
  { wLetterA with char := 'I', px := 3 }

/-- Witness for C2: a two-letter active list reconciled against a
one-entry layout. -/
theorem reconcile_truncation_witness :
    [LayoutEntry.mk 'H' (-3) 0].length < [wLetterA, wLetterB].length ∧
    ((reconcile false true [LayoutEntry.mk 'H' (-3) 0] [wLetterA, wLetterB]).1.length
        = [LayoutEntry.mk 'H' (-3) 0].length ∧
      (∀ i : ℕ,
        ((reconcile false true [LayoutEntry.mk 'H' (-3) 0] [wLetterA, wLetterB]).1.get? i).map
            Letter.char
          = ([LayoutEntry.mk 'H' (-3) 0].get? i).map LayoutEntry.char) ∧
      (reconcile false true [LayoutEntry.mk 'H' (-3) 0] [wLetterA, wLetterB]).2.length
        = [wLetterA, wLetterB].length - [LayoutEntry.mk 'H' (-3) 0].length ∧
      (∀ l ∈ (reconcile false true [LayoutEntry.mk 'H' (-3) 0] [wLetterA, wLetterB]).2,
        l.inScene = false ∧ l.geomDisposed = true ∧ l.matDisposed = true)) :=
  ⟨by decide, reconcile_truncation false true _ _ (by decide)⟩

/-! ## Per-frame update (main.js `updateLetters`, lines 625-733) -/

/-- The slice of `InflatableText.settings` consumed by the per-frame
update. -/
structure Settings (α : Type) where
  inflationSpeed : α
  gravity : α
  bounciness : α
  fontSize : α
  colliderSize : α
  targetBevelThickness : α
  targetBevelSize : α
deriving DecidableEq, Repr

/-- Inflation block of `updateLetters` (main.js:630-653): while
`isInflating`, advance `inflation` by `deltaTime * inflationSpeed`, clamp
at `1.0` (stopping the inflation there), and recompute the bevel values
from the cubic ease-out of the progress (the geometry is rebuilt from
them). -/
noncomputable def inflateStep (s : Settings ℝ) (dt : ℝ) (l : Letter ℝ) : Letter ℝ :=
  if l.isInflating then
    let infl0 := l.inflation + dt * s.inflationSpeed
    let infl := if infl0 ≥ 1 then (1 : ℝ) else infl0
    let inflating := if infl0 ≥ 1 then false else l.isInflating
    let eased := 1 - (1 - infl) ^ 3
    { l with inflation := infl, isInflating := inflating,
             currentBevelThickness := eased * s.targetBevelThickness,
             currentBevelSize := eased * s.targetBevelSize }
  else l

/-- Physics block of `updateLetters` (main.js:656-682): gravity, position
integration at the fixed 60 Hz reference scale, then boundary collision
with clamp and `bounciness`-scaled velocity reflection
(`Math.abs` ↦ `|·|`). -/
noncomputable def physStep (s : Settings ℝ) (b : Bounds ℝ) (dt : ℝ) (l : Letter ℝ) :
    Letter ℝ :=
  let vy0 := l.vy - s.gravity * dt * 60
  let px0 := l.px + l.vx * dt * 60
  let py0 := l.py + vy0 * dt * 60
  let pxvx : ℝ × ℝ :=
    if px0 < b.minX then (b.minX, |l.vx| * s.bounciness)
    else if px0 > b.maxX then (b.maxX, -|l.vx| * s.bounciness)
    else (px0, l.vx)
  let pyvy : ℝ × ℝ :=
    if py0 < b.minY then (b.minY, |vy0| * s.bounciness)
    else if py0 > b.maxY then (b.maxY, -|vy0| * s.bounciness)
    else (py0, vy0)
  { l with px := pxvx.1, vx := pxvx.2, py := pyvy.1, vy := pyvy.2 }

/-- The 2-D distance between two letters
(main.js:692-694, `Math.sqrt(dx*dx + dy*dy)`). -/
noncomputable def pdist (A B : Letter ℝ) : ℝ :=
  Real.sqrt ((B.px - A.px) * (B.px - A.px) + (B.py - A.py) * (B.py - A.py))

/-- One pairwise collision resolution (the inner loop body of
main.js:686-731): under `0 < distance < 2 * fontSize * colliderSize`,
separate the two letters symmetrically along the collision normal by half
the overlap each (`0.5` ↦ `/ 2`), then — only when the relative velocity
along the normal is negative — apply the `bounciness`-scaled impulse with
opposite signs to the two velocities. -/
noncomputable def resolvePair (s : Settings ℝ) (A B : Letter ℝ) : Letter ℝ × Letter ℝ :=
  let dx := B.px - A.px
  let dy := B.py - A.py
  let distance := pdist A B
  let collisionRadius := s.fontSize * s.colliderSize
  let minDistance := collisionRadius * 2
  if distance < minDistance ∧ distance > 0 then
    let nx := dx / distance
    let ny := dy / distance
    let overlap := minDistance - distance
    let separationX := nx * overlap / 2
    let separationY := ny * overlap / 2
    let A1 := { A with px := A.px - separationX, py := A.py - separationY }
    let B1 := { B with px := B.px + separationX, py := B.py + separationY }
    let dvx := B1.vx - A1.vx
    let dvy := B1.vy - A1.vy
    let relativeVelocity := dvx * nx + dvy * ny
    if relativeVelocity < 0 then
      let impulse := relativeVelocity * s.bounciness
      ({ A1 with vx := A1.vx - impulse * nx, vy := A1.vy - impulse * ny },
       { B1 with vx := B1.vx + impulse * nx, vy := B1.vy + impulse * ny })
    else (A1, B1)
  else (A, B)

/-- Inner-loop index list `j = i+1 .. n-1` (main.js:687). -/
def innerIndices (i n : ℕ) : List ℕ := (List.range n).drop (i + 1)

/-- The index pairs `(i, j)` with `i < j < n` visited by the nested
collision loops (main.js:686-687), in visiting order. -/
def pairIndices (n : ℕ) : List (ℕ × ℕ) :=
  (List.range n).flatMap fun i => (innerIndices i n).map fun j => (i, j)

/-- Resolution of the pair at indices `(i, j)` of the letter list,
writing both updated letters back in place. -/
noncomputable def collideAt (s : Settings ℝ) (ls : List (Letter ℝ)) (ij : ℕ × ℕ) :
    List (Letter ℝ) :=
  match ls.get? ij.1, ls.get? ij.2 with
  | some A, some B =>
    let p := resolvePair s A B
    (ls.set ij.1 p.1).set ij.2 p.2
  | _, _ => ls

/-- The letter-to-letter collision pass (main.js:685-732): the nested
loops over all index pairs, resolving each pair against the current
(partially updated) list. -/
noncomputable def collisionPass (s : Settings ℝ) (ls : List (Letter ℝ)) :
    List (Letter ℝ) :=
  (pairIndices ls.length).foldl (collideAt s) ls

/-- One full `updateLetters(deltaTime)` frame (main.js:625-733): the
per-letter inflation + physics pass over every entry of `letterMeshes`
(static letters included — the loop has no `isStatic` guard), followed by
the pairwise collision pass. -/
noncomputable def updateLetters (s : Settings ℝ) (b : Bounds ℝ) (dt : ℝ)
    (ls : List (Letter ℝ)) : List (Letter ℝ) :=
  collisionPass s (ls.map fun l => physStep s b dt (inflateStep s dt l))

/-- All fields of a letter except the kinematic ones (`px`, `py`, `vx`,
`vy`): the collision pass never touches these. -/
def animState (l : Letter ℝ) :
    Char × ℝ × Bool × Bool × Bool × ℝ × ℝ × ℝ × ℝ × Bool × Bool × Bool :=
  (l.char, l.inflation, l.isInflating, l.isStatic, l.isFlyingDigit,
   l.currentBevelThickness, l.currentBevelSize, l.scale, l.opacity,
   l.inScene, l.geomDisposed, l.matDisposed)

lemma animState_resolvePair (s : Settings ℝ) (A B : Letter ℝ) :
    animState (resolvePair s A B).1 = animState A ∧
    animState (resolvePair s A B).2 = animState B := by
  unfold resolvePair
  dsimp only
  split_ifs <;> exact ⟨rfl, rfl⟩

lemma animState_physStep (s : Settings ℝ) (b : Bounds ℝ) (dt : ℝ) (l : Letter ℝ) :
    animState (physStep s b dt l) = animState l := rfl

lemma collideAt_length (s : Settings ℝ) (ls : List (Letter ℝ)) (ij : ℕ × ℕ) :
    (collideAt s ls ij).length = ls.length := by
  unfold collideAt
  rcases ls.get? ij.1 with _ | A <;> rcases ls.get? ij.2 with _ | B <;>
    simp [List.length_set]

lemma collideAt_animState (s : Settings ℝ) (ls : List (Letter ℝ)) (ij : ℕ × ℕ) (k : ℕ) :
    ((collideAt s ls ij).get? k).map animState = (ls.get? k).map animState := by
  unfold collideAt
  rcases h1 : ls.get? ij.1 with _ | A <;> rcases h2 : ls.get? ij.2 with _ | B
  · rfl
  · rfl
  · rfl
  · dsimp only
    have h1' : ls[ij.1]? = some A := by rw [← List.get?_eq_getElem?]; exact h1
    have h2' : ls[ij.2]? = some B := by rw [← List.get?_eq_getElem?]; exact h2
    rw [List.get?_set, List.get?_set]
    by_cases hj : ij.2 = k
    · subst hj
      by_cases hi : ij.1 = ij.2 <;>
        simp [hi, h2', (animState_resolvePair s A B).2]
    · by_cases hi : ij.1 = k
      · subst hi
        simp [hj, h1', (animState_resolvePair s A B).1]
      · simp [hi, hj]

lemma foldl_collideAt_animState (s : Settings ℝ) (pairs : List (ℕ × ℕ)) :
    ∀ (ls : List (Letter ℝ)) (k : ℕ),
      ((pairs.foldl (collideAt s) ls).get? k).map animState
        = (ls.get? k).map animState := by
  induction pairs with
  | nil => intro ls k; rfl
  | cons p ps ih =>
    intro ls k
    rw [List.foldl_cons, ih, collideAt_animState]

lemma foldl_collideAt_length (s : Settings ℝ) (pairs : List (ℕ × ℕ)) :
    ∀ ls : List (Letter ℝ), (pairs.foldl (collideAt s) ls).length = ls.length := by
  induction pairs with
  | nil => intro ls; rfl
  | cons p ps ih =>
    intro ls
    rw [List.foldl_cons, ih, collideAt_length]

lemma updateLetters_length (s : Settings ℝ) (b : Bounds ℝ) (dt : ℝ)
    (ls : List (Letter ℝ)) : (updateLetters s b dt ls).length = ls.length := by
  unfold updateLetters collisionPass
  rw [foldl_collideAt_length, List.length_map]

lemma updateLetters_animState (s : Settings ℝ) (b : Bounds ℝ) (dt : ℝ)
    (ls : List (Letter ℝ)) (k : ℕ) :
    ((updateLetters s b dt ls).get? k).map animState
      = (ls.get? k).map fun l => animState (inflateStep s dt l) := by
  unfold updateLetters collisionPass
  rw [foldl_collideAt_animState, List.get?_map, Option.map_map]
  cases ls.get? k
  · rfl
  · simp [Function.comp, animState_physStep]

lemma inflateStep_inflation (s : Settings ℝ) (dt : ℝ) (l : Letter ℝ) :
    (inflateStep s dt l).inflation
      = if l.isInflating then
          (if l.inflation + dt * s.inflationSpeed ≥ 1 then (1 : ℝ)
            else l.inflation + dt * s.inflationSpeed)
        else l.inflation := by
  unfold inflateStep
  split <;> rfl

lemma inflateStep_isInflating (s : Settings ℝ) (dt : ℝ) (l : Letter ℝ) :
    (inflateStep s dt l).isInflating
      = if l.isInflating then
          (if l.inflation + dt * s.inflationSpeed ≥ 1 then false else l.isInflating)
        else l.isInflating := by
  unfold inflateStep
  split <;> rfl

/-- The per-letter body of the replay button handler (ui.js:326-334):
the explicit replay/reset, the one path on which `inflation` decreases.
(`floatTime` is also zeroed there; the field is written in three places
and never read, so it is not modelled.) -/
noncomputable def replayLetter (l : Letter ℝ) : Letter ℝ :=
  { l with inflation := 0, currentBevelThickness := 0, currentBevelSize := 0,
           isInflating := true }

/-! ## Claim C1: inflation monotonicity and clamping -/

/-- C1: across one frame tick, a letter's `inflation` progresses by
exactly `deltaTime * inflationSpeed` while `isInflating` (and is
untouched otherwise), is clamped to exactly `1`, never decreases (for
non-negative `deltaTime` and `inflationSpeed`), never overshoots `1`, and
`isInflating` is cleared exactly when the clamp fires. -/
theorem inflation_monotone (s : Settings ℝ) (b : Bounds ℝ) (dt : ℝ)
    (ls : List (Letter ℝ)) (i : ℕ) (l : Letter ℝ)
    (hdt : 0 ≤ dt) (hsp : 0 ≤ s.inflationSpeed)
    (hget : ls.get? i = some l) (hle : l.inflation ≤ 1) :
    ∃ l', (updateLetters s b dt ls).get? i = some l' ∧
      l'.inflation
        = (if l.isInflating then min (l.inflation + dt * s.inflationSpeed) 1
            else l.inflation) ∧
      l.inflation ≤ l'.inflation ∧ l'.inflation ≤ 1 ∧
      (l.isInflating = true → 1 ≤ l.inflation + dt * s.inflationSpeed →
        l'.isInflating = false) := by
  have hmap := updateLetters_animState s b dt ls i
  rw [hget] at hmap
  rcases hget' : (updateLetters s b dt ls).get? i with _ | l'
  · rw [hget'] at hmap
    simp at hmap
  · rw [hget'] at hmap
    simp only [Option.map_some'] at hmap
    have hanim : animState l' = animState (inflateStep s dt l) :=
      Option.some_injective _ hmap
    have hinfl : l'.inflation = (inflateStep s dt l).inflation := by
      have := congrArg (fun t => t.2.1) hanim
      simpa [animState] using this
    have hinflating : l'.isInflating = (inflateStep s dt l).isInflating := by
      have := congrArg (fun t => t.2.2.1) hanim
      simpa [animState] using this
    have hstep : 0 ≤ dt * s.inflationSpeed := mul_nonneg hdt hsp
    refine ⟨l', rfl, ?_, ?_, ?_, ?_⟩
    · rw [hinfl, inflateStep_inflation]
      rcases l.isInflating with _ | _
      · simp
      · simp only [if_true]
        split
        · rw [min_eq_right (by linarith)]
        · rw [min_eq_left (by linarith)]
    · rw [hinfl, inflateStep_inflation]
      split
      · split
        · linarith
        · linarith
      · exact le_refl _
    · rw [hinfl, inflateStep_inflation]
      split
      · split
        · exact le_refl _
        · linarith
      · exact hle
    · intro hinf hone
      rw [hinflating, inflateStep_isInflating, if_pos hinf, if_pos (by linarith)]

/-- Concrete settings for the inflation witness: speed 1, no gravity. -/
noncomputable def cSet1 : Settings ℝ := ⟨1, 0, 1/10, 5, 2/5, 23/100, 3/20⟩

/-- Concrete canvas bounds used by several witnesses. -/
def cBnd : Bounds ℝ := ⟨-40, 40, -30, 30⟩

/-- A letter mid-inflation, for the inflation witness. -/
noncomputable def cInfl : Letter ℝ :=
  { char := 'H', px := 0, py := 0, vx := 0, vy := 0,
    inflation := 1/4, isInflating := true, isStatic := false, isFlyingDigit := false,
    currentBevelThickness := 0, currentBevelSize := 0, scale := 1, opacity := 1,
    inScene := true, geomDisposed := false, matDisposed := false }

/-- Witness for C1 at a concrete input: a letter at progress `1/4`,
speed `1`, tick `1/2`. -/
theorem inflation_monotone_witness :
    (0 : ℝ) ≤ 1/2 ∧ (0 : ℝ) ≤ cSet1.inflationSpeed ∧
    [cInfl].get? 0 = some cInfl ∧ cInfl.inflation ≤ 1 ∧
    (∃ l', (updateLetters cSet1 cBnd (1/2) [cInfl]).get? 0 = some l' ∧
      l'.inflation
        = (if cInfl.isInflating then min (cInfl.inflation + (1/2) * cSet1.inflationSpeed) 1
            else cInfl.inflation) ∧
      cInfl.inflation ≤ l'.inflation ∧ l'.inflation ≤ 1 ∧
      (cInfl.isInflating = true → 1 ≤ cInfl.inflation + (1/2) * cSet1.inflationSpeed →
        l'.isInflating = false)) :=
  ⟨by norm_num, by norm_num [cSet1], rfl, by norm_num [cInfl],
    inflation_monotone cSet1 cBnd (1/2) [cInfl] 0 cInfl (by norm_num)
      (by norm_num [cSet1]) rfl (by norm_num [cInfl])⟩

/-! ## Claim C3: boundary containment -/

lemma physStep_mem_bounds (s : Settings ℝ) (b : Bounds ℝ) (dt : ℝ) (l : Letter ℝ)
    (hx : b.minX ≤ b.maxX) (hy : b.minY ≤ b.maxY) :
    b.minX ≤ (physStep s b dt l).px ∧ (physStep s b dt l).px ≤ b.maxX ∧
    b.minY ≤ (physStep s b dt l).py ∧ (physStep s b dt l).py ≤ b.maxY := by
  unfold physStep
  dsimp only
  refine ⟨?_, ?_, ?_, ?_⟩ <;> (split_ifs <;> simp <;> linarith)

/-- C3 (amended): containment holds at the end of the per-letter phase of
the frame (gravity, position integration and boundary clamping,
main.js:656-678): for a non-degenerate bounds rectangle, every letter's
position lies in `[minX,maxX] × [minY,maxY]` there.  The subsequent
pairwise collision pass (main.js:685-732) can move positions back out of
bounds — see the counterexample — so the claim as stated over the full
update is false. -/
theorem boundary_containment_before_collision (s : Settings ℝ) (b : Bounds ℝ)
    (dt : ℝ) (l : Letter ℝ) (hx : b.minX ≤ b.maxX) (hy : b.minY ≤ b.maxY) :
    b.minX ≤ (physStep s b dt (inflateStep s dt l)).px ∧
    (physStep s b dt (inflateStep s dt l)).px ≤ b.maxX ∧
    b.minY ≤ (physStep s b dt (inflateStep s dt l)).py ∧
    (physStep s b dt (inflateStep s dt l)).py ≤ b.maxY :=
  physStep_mem_bounds s b dt (inflateStep s dt l) hx hy

/-- Witness for the amended C3 at a concrete input: a letter shot far
below the floor is clamped back into the box. -/
theorem boundary_containment_before_collision_witness :
    cBnd.minX ≤ cBnd.maxX ∧ cBnd.minY ≤ cBnd.maxY ∧
    (cBnd.minX ≤ (physStep cSet1 cBnd (1/60) (inflateStep cSet1 (1/60) cInfl)).px ∧
      (physStep cSet1 cBnd (1/60) (inflateStep cSet1 (1/60) cInfl)).px ≤ cBnd.maxX ∧
      cBnd.minY ≤ (physStep cSet1 cBnd (1/60) (inflateStep cSet1 (1/60) cInfl)).py ∧
      (physStep cSet1 cBnd (1/60) (inflateStep cSet1 (1/60) cInfl)).py ≤ cBnd.maxY) :=
  ⟨by norm_num [cBnd], by norm_num [cBnd],
    boundary_containment_before_collision cSet1 cBnd (1/60) cInfl
      (by norm_num [cBnd]) (by norm_num [cBnd])⟩

/-! ## Pairwise collision resolution: component lemmas -/

lemma resolvePair_fst_px (s : Settings ℝ) (A B : Letter ℝ) (h0 : pdist A B > 0)
    (h2 : pdist A B < s.fontSize * s.colliderSize * 2) :
    (resolvePair s A B).1.px
      = A.px - (B.px - A.px) / pdist A B * (s.fontSize * s.colliderSize * 2 - pdist A B) / 2 := by
  unfold resolvePair
  dsimp only
  rw [if_pos ⟨h2, h0⟩]
  split <;> rfl

lemma resolvePair_fst_py (s : Settings ℝ) (A B : Letter ℝ) (h0 : pdist A B > 0)
    (h2 : pdist A B < s.fontSize * s.colliderSize * 2) :
    (resolvePair s A B).1.py
      = A.py - (B.py - A.py) / pdist A B * (s.fontSize * s.colliderSize * 2 - pdist A B) / 2 := by
  unfold resolvePair
  dsimp only
  rw [if_pos ⟨h2, h0⟩]
  split <;> rfl

lemma resolvePair_snd_px (s : Settings ℝ) (A B : Letter ℝ) (h0 : pdist A B > 0)
    (h2 : pdist A B < s.fontSize * s.colliderSize * 2) :
    (resolvePair s A B).2.px
      = B.px + (B.px - A.px) / pdist A B * (s.fontSize * s.colliderSize * 2 - pdist A B) / 2 := by
  unfold resolvePair
  dsimp only
  rw [if_pos ⟨h2, h0⟩]
  split <;> rfl

lemma resolvePair_snd_py (s : Settings ℝ) (A B : Letter ℝ) (h0 : pdist A B > 0)
    (h2 : pdist A B < s.fontSize * s.colliderSize * 2) :
    (resolvePair s A B).2.py
      = B.py + (B.py - A.py) / pdist A B * (s.fontSize * s.colliderSize * 2 - pdist A B) / 2 := by
  unfold resolvePair
  dsimp only
  rw [if_pos ⟨h2, h0⟩]
  split <;> rfl

/-! ## Claim C4: static letters and the physics pass -/

/-- A settled static clock digit (spawned by `spawnDigitAt`, clock.js:173-197,
after its inflation has completed). -/
noncomputable def cStatic : Letter ℝ :=
  { char := '0', px := 0, py := 0, vx := 0, vy := 0,
    inflation := 1, isInflating := false, isStatic := true, isFlyingDigit := false,
    currentBevelThickness := 23/100, currentBevelSize := 3/20, scale := 1, opacity := 1,
    inScene := true, geomDisposed := false, matDisposed := false }

/-- Settings with non-zero gravity `0.1` (the gravity slider range allows
it; main.js default is `0`). -/
noncomputable def cSetG : Settings ℝ := ⟨1, 1/10, 1/10, 5, 2/5, 23/100, 3/20⟩

/-- C4 evaluation: a static letter (`isStatic = true`, at rest at the
origin) is NOT exempt from the physics pass — one `updateLetters` frame
with gravity `0.1` and `deltaTime = 1/60` moves it down to `y = -0.1`,
because the per-letter loop (main.js:628-683) has no `isStatic` guard. -/
theorem static_letter_not_exempt :
    cStatic.isStatic = true ∧ cStatic.py = 0 ∧ cStatic.vy = 0 ∧
    ((updateLetters cSetG cBnd (1/60) [cStatic]).get? 0).map Letter.py
      = some (-(1/10)) := by
  refine ⟨rfl, rfl, rfl, ?_⟩
  have hp : pairIndices 1 = [] := by decide
  unfold updateLetters collisionPass
  rw [List.length_map]
  rw [show ([cStatic] : List (Letter ℝ)).length = 1 from rfl, hp, List.foldl_nil,
    List.map_cons, List.map_nil]
  rw [show ([physStep cSetG cBnd (1/60) (inflateStep cSetG (1/60) cStatic)].get? 0)
      = some (physStep cSetG cBnd (1/60) (inflateStep cSetG (1/60) cStatic)) from rfl]
  rw [Option.map_some']
  have hik : inflateStep cSetG (1/60) cStatic = cStatic := by
    unfold inflateStep
    rw [if_neg]
    simp [cStatic]
  rw [hik]
  unfold physStep
  dsimp only
  norm_num [cStatic, cSetG, cBnd]

/-! ## Claim C8: zero-distance pairs are skipped -/

/-- C8: two perfectly overlapping letters (2-D distance exactly zero) are
left completely untouched by the pair resolution: the
`distance > 0` conjunct of the guard (main.js:701) fails, so no normal
vector is computed, no separation and no impulse is applied (and in this
real-number model no division by zero is ever performed on this path). -/
theorem zero_distance_pair_skipped (s : Settings ℝ) (A B : Letter ℝ)
    (hx : B.px = A.px) (hy : B.py = A.py) :
    resolvePair s A B = (A, B) := by
  have hd : pdist A B = 0 := by
    unfold pdist
    rw [hx, hy]
    simp
  unfold resolvePair
  dsimp only
  rw [if_neg]
  rintro ⟨-, hpos⟩
  rw [hd] at hpos
  exact lt_irrefl 0 hpos

/-- A letter for the zero-distance witness. -/
noncomputable def cOverA : Letter ℝ :=
  { char := 'X', px := 2, py := 3, vx := 1, vy := -1,
    inflation := 1, isInflating := false, isStatic := false, isFlyingDigit := false,
    currentBevelThickness := 23/100, currentBevelSize := 3/20, scale := 1, opacity := 1,
    inScene := true, geomDisposed := false, matDisposed := false }

/-- A second letter at exactly the same position. -/
noncomputable def cOverB : Letter ℝ := { cOverA with char := 'Y', vx := -2 }

/-- Witness for C8 at a concrete input: two letters at the same point. -/
theorem zero_distance_pair_skipped_witness :
    cOverB.px = cOverA.px ∧ cOverB.py = cOverA.py ∧
    resolvePair cSet1 cOverA cOverB = (cOverA, cOverB) :=
  ⟨rfl, rfl, zero_distance_pair_skipped cSet1 cOverA cOverB rfl rfl⟩

/-! ## Claim C10: the separation preserves the pair's midpoint -/

/-- C10: for an overlapping pair at positive distance, the separation
step moves the two letters by exactly opposite offsets, so the midpoint
of their positions is unchanged by the resolution. -/
theorem collision_midpoint_preserved (s : Settings ℝ) (A B : Letter ℝ)
    (h0 : pdist A B > 0) (h2 : pdist A B < s.fontSize * s.colliderSize * 2) :
    ((resolvePair s A B).1.px + (resolvePair s A B).2.px) / 2 = (A.px + B.px) / 2 ∧
    ((resolvePair s A B).1.py + (resolvePair s A B).2.py) / 2 = (A.py + B.py) / 2 := by
  rw [resolvePair_fst_px s A B h0 h2, resolvePair_fst_py s A B h0 h2,
    resolvePair_snd_px s A B h0 h2, resolvePair_snd_py s A B h0 h2]
  constructor <;> ring

/-- First letter for the midpoint witness. -/
noncomputable def cMidA : Letter ℝ :=
  { char := 'M', px := 0, py := 0, vx := 0, vy := 0,
    inflation := 1, isInflating := false, isStatic := false, isFlyingDigit := false,
    currentBevelThickness := 23/100, currentBevelSize := 3/20, scale := 1, opacity := 1,
    inScene := true, geomDisposed := false, matDisposed := false }

/-- Second letter for the midpoint witness, at distance 3 (below the
collision threshold `2r = 4` of `cSet1`). -/
noncomputable def cMidB : Letter ℝ := { cMidA with char := 'N', py := 3 }

lemma pdist_cMid : pdist cMidA cMidB = 3 := by
  unfold pdist
  rw [show (cMidB.px - cMidA.px) * (cMidB.px - cMidA.px)
      + (cMidB.py - cMidA.py) * (cMidB.py - cMidA.py) = (3 : ℝ) ^ 2 by
    norm_num [cMidA, cMidB]]
  exact Real.sqrt_sq (by norm_num)

/-- Witness for C10 at a concrete input: letters at distance 3 with
collision diameter 4. -/
theorem collision_midpoint_preserved_witness :
    pdist cMidA cMidB > 0 ∧
    pdist cMidA cMidB < cSet1.fontSize * cSet1.colliderSize * 2 ∧
    (((resolvePair cSet1 cMidA cMidB).1.px + (resolvePair cSet1 cMidA cMidB).2.px) / 2
        = (cMidA.px + cMidB.px) / 2 ∧
      ((resolvePair cSet1 cMidA cMidB).1.py + (resolvePair cSet1 cMidA cMidB).2.py) / 2
        = (cMidA.py + cMidB.py) / 2) :=
  ⟨by rw [pdist_cMid]; norm_num,
    by rw [pdist_cMid]; norm_num [cSet1],
    collision_midpoint_preserved cSet1 cMidA cMidB
      (by rw [pdist_cMid]; norm_num)
      (by rw [pdist_cMid]; norm_num [cSet1])⟩

/-! ## Claim C5: one pairwise resolution pass -/

lemma sep_arg (px py qx qy d r2 : ℝ) (hd : d ≠ 0)
    (hdd : d * d = (qx - px) * (qx - px) + (qy - py) * (qy - py)) :
    (qx + (qx - px) / d * (r2 - d) / 2 - (px - (qx - px) / d * (r2 - d) / 2))
      * (qx + (qx - px) / d * (r2 - d) / 2 - (px - (qx - px) / d * (r2 - d) / 2))
    + (qy + (qy - py) / d * (r2 - d) / 2 - (py - (qy - py) / d * (r2 - d) / 2))
      * (qy + (qy - py) / d * (r2 - d) / 2 - (py - (qy - py) / d * (r2 - d) / 2))
    = r2 * r2 := by
  have h1 : qx + (qx - px) / d * (r2 - d) / 2 - (px - (qx - px) / d * (r2 - d) / 2)
      = (qx - px) * r2 / d := by
    field_simp
    ring
  have h2 : qy + (qy - py) / d * (r2 - d) / 2 - (py - (qy - py) / d * (r2 - d) / 2)
      = (qy - py) * r2 / d := by
    field_simp
    ring
  rw [h1, h2]
  field_simp
  linear_combination (-(r2 * r2)) * hdd

/-- After the symmetric separation, the two letters are at distance
exactly `2r` — in particular the distance never decreased. -/
lemma resolvePair_dist (s : Settings ℝ) (A B : Letter ℝ) (h0 : pdist A B > 0)
    (h2 : pdist A B < s.fontSize * s.colliderSize * 2) :
    pdist (resolvePair s A B).1 (resolvePair s A B).2
      = s.fontSize * s.colliderSize * 2 := by
  have hr2 : (0 : ℝ) < s.fontSize * s.colliderSize * 2 := h0.trans h2
  have hdne : pdist A B ≠ 0 := ne_of_gt h0
  have hdd : pdist A B * pdist A B
      = (B.px - A.px) * (B.px - A.px) + (B.py - A.py) * (B.py - A.py) :=
    Real.mul_self_sqrt (add_nonneg (mul_self_nonneg _) (mul_self_nonneg _))
  unfold pdist
  rw [resolvePair_fst_px s A B h0 h2, resolvePair_fst_py s A B h0 h2,
    resolvePair_snd_px s A B h0 h2, resolvePair_snd_py s A B h0 h2,
    sep_arg A.px A.py B.px B.py (pdist A B) (s.fontSize * s.colliderSize * 2) hdne hdd,
    Real.sqrt_mul_self hr2.le]

lemma resolvePair_velocity_opposite (s : Settings ℝ) (A B : Letter ℝ)
    (h0 : pdist A B > 0) (h2 : pdist A B < s.fontSize * s.colliderSize * 2) :
    (resolvePair s A B).1.vx - A.vx = -((resolvePair s A B).2.vx - B.vx) ∧
    (resolvePair s A B).1.vy - A.vy = -((resolvePair s A B).2.vy - B.vy) := by
  unfold resolvePair
  dsimp only
  rw [if_pos ⟨h2, h0⟩]
  split <;> (dsimp only; constructor <;> ring)

lemma resolvePair_no_impulse (s : Settings ℝ) (A B : Letter ℝ)
    (h0 : pdist A B > 0) (h2 : pdist A B < s.fontSize * s.colliderSize * 2)
    (hrel : 0 ≤ (B.vx - A.vx) * ((B.px - A.px) / pdist A B)
      + (B.vy - A.vy) * ((B.py - A.py) / pdist A B)) :
    (resolvePair s A B).1.vx = A.vx ∧ (resolvePair s A B).1.vy = A.vy ∧
    (resolvePair s A B).2.vx = B.vx ∧ (resolvePair s A B).2.vy = B.vy := by
  unfold resolvePair
  dsimp only
  rw [if_pos ⟨h2, h0⟩, if_neg (not_lt.mpr hrel)]
  exact ⟨rfl, rfl, rfl, rfl⟩

/-- The conclusion bundle of the pairwise-resolution claim, for a pair at
distance `d` with `0 < d < 2r`, `r = fontSize * colliderSize`: the two
letters are moved by exactly opposite offsets of half the overlap along
the collision normal; the resulting distance is exactly `2r` and hence at
least `d`; the velocity changes of the two letters are exactly opposite;
and if the pair is not approaching (relative velocity along the normal
non-negative) the velocities are untouched. -/
def resolveSpec (s : Settings ℝ) (A B : Letter ℝ) : Prop :=
  (resolvePair s A B).1.px
      = A.px - (B.px - A.px) / pdist A B * (s.fontSize * s.colliderSize * 2 - pdist A B) / 2 ∧
  (resolvePair s A B).1.py
      = A.py - (B.py - A.py) / pdist A B * (s.fontSize * s.colliderSize * 2 - pdist A B) / 2 ∧
  (resolvePair s A B).2.px
      = B.px + (B.px - A.px) / pdist A B * (s.fontSize * s.colliderSize * 2 - pdist A B) / 2 ∧
  (resolvePair s A B).2.py
      = B.py + (B.py - A.py) / pdist A B * (s.fontSize * s.colliderSize * 2 - pdist A B) / 2 ∧
  pdist (resolvePair s A B).1 (resolvePair s A B).2 = s.fontSize * s.colliderSize * 2 ∧
  pdist A B ≤ pdist (resolvePair s A B).1 (resolvePair s A B).2 ∧
  (resolvePair s A B).1.vx - A.vx = -((resolvePair s A B).2.vx - B.vx) ∧
  (resolvePair s A B).1.vy - A.vy = -((resolvePair s A B).2.vy - B.vy) ∧
  (0 ≤ (B.vx - A.vx) * ((B.px - A.px) / pdist A B)
      + (B.vy - A.vy) * ((B.py - A.py) / pdist A B) →
    (resolvePair s A B).1.vx = A.vx ∧ (resolvePair s A B).1.vy = A.vy ∧
    (resolvePair s A B).2.vx = B.vx ∧ (resolvePair s A B).2.vy = B.vy)

/-- C5: one pairwise resolution pass on a pair at distance
`0 < d < 2r` separates the letters symmetrically by half the overlap
each along the collision normal, leaves them at distance exactly
`2r ≥ d` (the overlap never increases), and applies equal-magnitude,
opposite-sign velocity changes, with no impulse at all unless the
letters are approaching. -/
theorem collision_separation (s : Settings ℝ) (A B : Letter ℝ)
    (h0 : pdist A B > 0) (h2 : pdist A B < s.fontSize * s.colliderSize * 2) :
    resolveSpec s A B := by
  refine ⟨resolvePair_fst_px s A B h0 h2, resolvePair_fst_py s A B h0 h2,
    resolvePair_snd_px s A B h0 h2, resolvePair_snd_py s A B h0 h2,
    resolvePair_dist s A B h0 h2, ?_,
    (resolvePair_velocity_opposite s A B h0 h2).1,
    (resolvePair_velocity_opposite s A B h0 h2).2,
    resolvePair_no_impulse s A B h0 h2⟩
  rw [resolvePair_dist s A B h0 h2]
  exact h2.le

/-- Settings for the separation witness: `r = 5`, collision diameter 10. -/
noncomputable def cSet5 : Settings ℝ := ⟨1, 0, 1/2, 5, 1, 23/100, 3/20⟩

/-- First letter for the separation witness, at the origin. -/
noncomputable def cSepA : Letter ℝ :=
  { char := 'P', px := 0, py := 0, vx := 0, vy := 0,
    inflation := 1, isInflating := false, isStatic := false, isFlyingDigit := false,
    currentBevelThickness := 23/100, currentBevelSize := 3/20, scale := 1, opacity := 1,
    inScene := true, geomDisposed := false, matDisposed := false }

/-- Second letter for the separation witness, at `(3,4)` — distance 5. -/
noncomputable def cSepB : Letter ℝ := { cSepA with char := 'Q', px := 3, py := 4 }

lemma pdist_cSep : pdist cSepA cSepB = 5 := by
  unfold pdist
  rw [show (cSepB.px - cSepA.px) * (cSepB.px - cSepA.px)
      + (cSepB.py - cSepA.py) * (cSepB.py - cSepA.py) = (5 : ℝ) ^ 2 by
    norm_num [cSepA, cSepB]]
  exact Real.sqrt_sq (by norm_num)

/-- Witness for C5 at a concrete input: letters at distance 5 with
collision diameter 10. -/
theorem collision_separation_witness :
    pdist cSepA cSepB > 0 ∧
    pdist cSepA cSepB < cSet5.fontSize * cSet5.colliderSize * 2 ∧
    resolveSpec cSet5 cSepA cSepB :=
  ⟨by rw [pdist_cSep]; norm_num,
    by rw [pdist_cSep]; norm_num [cSet5],
    collision_separation cSet5 cSepA cSepB
      (by rw [pdist_cSep]; norm_num)
      (by rw [pdist_cSep]; norm_num [cSet5])⟩

/-! ## Claim C6: clock digit replacement and the missing decay -/

/-- The constant `ClockMode.oldDigitSettings.pushForce` (clock.js:26). -/
noncomputable def clockPushForce : ℝ := 7/100

/-- The constant `ClockMode.oldDigitSettings.opacity` (clock.js:31). -/
noncomputable def clockOldOpacity : ℝ := 9/10

/-- The constant `ClockMode.oldDigitSettings.scaleStart` (clock.js:32). -/
noncomputable def clockScaleStart : ℝ := 1

/-- The mutation of the replaced digit in `transitionDigit`
(clock.js:251-273): unfreeze it, mark it as a flying digit, give it an
upward push scaled by the random draw `r1` and a horizontal drift from
the random draw `r2`, set the configured opacity and apply the starting
scale.  (`isClockDigit := false` and `birthTime` are also written there;
neither field is ever read anywhere in the program.) -/
noncomputable def transitionOld (r1 r2 : ℝ) (l : Letter ℝ) : Letter ℝ :=
  { l with isStatic := false, isFlyingDigit := true,
           vy := clockPushForce * (1/2 + r1 * (1/2)),
           vx := (r2 - 1/2) * clockPushForce * (1/2),
           opacity := clockOldOpacity,
           scale := clockScaleStart }

lemma inflateStep_scale (s : Settings ℝ) (dt : ℝ) (l : Letter ℝ) :
    (inflateStep s dt l).scale = l.scale := by
  unfold inflateStep
  split <;> rfl

lemma updateLetters_scale (s : Settings ℝ) (b : Bounds ℝ) (dt : ℝ)
    (ls : List (Letter ℝ)) (i : ℕ) :
    ((updateLetters s b dt ls).get? i).map Letter.scale
      = (ls.get? i).map Letter.scale := by
  have h := updateLetters_animState s b dt ls i
  cases hu : (updateLetters s b dt ls).get? i with
  | none =>
    rw [hu] at h
    cases hq : ls.get? i with
    | none => rfl
    | some l => rw [hq] at h; simp at h
  | some l' =>
    rw [hu] at h
    cases hq : ls.get? i with
    | none => rw [hq] at h; simp at h
    | some l =>
      rw [hq] at h
      simp only [Option.map_some'] at h ⊢
      have hanim : animState l' = animState (inflateStep s dt l) :=
        Option.some_injective _ h
      have hs := congrArg (fun t => t.2.2.2.2.2.2.2.1) hanim
      simpa [animState, inflateStep_scale] using hs

/-- C6 evaluation: `transitionDigit` does put the replaced digit into the
flying state — unfrozen, upward push from the random draw, horizontal
drift, opacity set to the configured constant, render scale set to the
captured `scaleStart` — but the claimed linear shrink-over-time and the
removal at scale zero do not exist in the program: every
`updateLetters` frame preserves the length of the letter list and every
letter's `scale`, for any number of frames, so a flying digit never
shrinks and never leaves the active list. -/
theorem flying_digit_never_shrinks (r1 r2 : ℝ) (l : Letter ℝ) :
    (transitionOld r1 r2 l).isStatic = false ∧
    (transitionOld r1 r2 l).isFlyingDigit = true ∧
    (transitionOld r1 r2 l).vy = clockPushForce * (1/2 + r1 * (1/2)) ∧
    (transitionOld r1 r2 l).vx = (r2 - 1/2) * clockPushForce * (1/2) ∧
    (transitionOld r1 r2 l).opacity = clockOldOpacity ∧
    (transitionOld r1 r2 l).scale = clockScaleStart ∧
    ∀ (s : Settings ℝ) (b : Bounds ℝ) (dt : ℝ) (ls : List (Letter ℝ)) (k i : ℕ),
      ((updateLetters s b dt)^[k] ls).length = ls.length ∧
      (((updateLetters s b dt)^[k] ls).get? i).map Letter.scale
        = (ls.get? i).map Letter.scale := by
  refine ⟨rfl, rfl, rfl, rfl, rfl, rfl, ?_⟩
  intro s b dt ls k i
  induction k with
  | zero => exact ⟨rfl, rfl⟩
  | succ n ih =>
    refine ⟨?_, ?_⟩
    · rw [Function.iterate_succ_apply', updateLetters_length, ih.1]
    · rw [Function.iterate_succ_apply', updateLetters_scale, ih.2]

/-! ## Claim C3, counterexample: collision pass can break containment -/

/-- Bounds `[0,100] × [0,100]` for the containment counterexample. -/
noncomputable def cBnd3 : Bounds ℝ := ⟨0, 100, 0, 100⟩

/-- A settled letter resting exactly on the left wall. -/
noncomputable def cEdgeA : Letter ℝ :=
  { char := 'E', px := 0, py := 50, vx := 0, vy := 0,
    inflation := 1, isInflating := false, isStatic := false, isFlyingDigit := false,
    currentBevelThickness := 23/100, currentBevelSize := 3/20, scale := 1, opacity := 1,
    inScene := true, geomDisposed := false, matDisposed := false }

/-- A settled letter overlapping it, one unit to the right. -/
noncomputable def cEdgeB : Letter ℝ := { cEdgeA with char := 'F', px := 1 }

lemma pdist_cEdge : pdist cEdgeA cEdgeB = 1 := by
  unfold pdist
  rw [show (cEdgeB.px - cEdgeA.px) * (cEdgeB.px - cEdgeA.px)
      + (cEdgeB.py - cEdgeA.py) * (cEdgeB.py - cEdgeA.py) = (1 : ℝ) by
    norm_num [cEdgeA, cEdgeB]]
  exact Real.sqrt_one

lemma physStep_cEdgeA :
    physStep cSet1 cBnd3 (1/60) (inflateStep cSet1 (1/60) cEdgeA) = cEdgeA := by
  rw [show inflateStep cSet1 (1/60) cEdgeA = cEdgeA from rfl]
  unfold physStep
  dsimp only
  norm_num [cEdgeA, cSet1, cBnd3, Letter.mk.injEq]

lemma physStep_cEdgeB :
    physStep cSet1 cBnd3 (1/60) (inflateStep cSet1 (1/60) cEdgeB) = cEdgeB := by
  rw [show inflateStep cSet1 (1/60) cEdgeB = cEdgeB from rfl]
  unfold physStep
  dsimp only
  norm_num [cEdgeA, cEdgeB, cSet1, cBnd3, Letter.mk.injEq]

/-- C3 counterexample: one full `updateLetters` frame (gravity,
integration, boundary collision, then the pairwise pass) on two
overlapping settled letters, the first resting on the left wall, pushes
the first letter to `x = -3/2`, strictly outside the bounds rectangle —
the pairwise separation runs after the boundary clamp and is never
re-clamped. -/
theorem boundary_containment_counterexample :
    cBnd3.minX = 0 ∧
    ((updateLetters cSet1 cBnd3 (1/60) [cEdgeA, cEdgeB]).get? 0).map Letter.px
      = some (-(3/2)) ∧
    ((-(3/2) : ℝ) < cBnd3.minX) := by
  refine ⟨rfl, ?_, by norm_num [cBnd3]⟩
  have hp2 : pairIndices 2 = [(0, 1)] := by decide
  have h0 : pdist cEdgeA cEdgeB > 0 := by rw [pdist_cEdge]; norm_num
  have h2 : pdist cEdgeA cEdgeB < cSet1.fontSize * cSet1.colliderSize * 2 := by
    rw [pdist_cEdge]; norm_num [cSet1]
  unfold updateLetters collisionPass
  rw [List.length_map, show ([cEdgeA, cEdgeB] : List (Letter ℝ)).length = 2 from rfl,
    hp2, List.map_cons, List.map_cons, List.map_nil, physStep_cEdgeA, physStep_cEdgeB,
    List.foldl_cons, List.foldl_nil]
  unfold collideAt
  simp only [List.get?, List.set]
  rw [Option.map_some']
  rw [resolvePair_fst_px cSet1 cEdgeA cEdgeB h0 h2, pdist_cEdge]
  norm_num [cEdgeA, cEdgeB, cSet1]

end InflatableText

